import Mathlib

/-!
# Verification of `scripts/claude_review.py`

Shallow embedding of the automated code-review wrapper script.  The script
reads a diff file and a review file, builds a fixed prompt, invokes an
external CLI tool, resolves the tool's textual output into a JSON result
record via an ordered fallback chain, writes that record to an output file,
and exits with a status code.

Modelling conventions:
  * JSON values are the inductive `Json`; Python `json.loads` is modelled
    by the executable parser `Json.parse`, which follows the RFC 8259
    grammar that CPython's `json` module implements (including its
    `NaN` / `Infinity` / `-Infinity` extensions).  Numeric literals are
    given exact rational values (CPython rounds non-integral literals to
    binary floating point; no claim inspects a non-integral value, only
    whether parsing succeeds).  Lone `\uXXXX` surrogate escapes are kept
    by CPython as lone-surrogate code points, which Lean's `Char` cannot
    represent; they are mapped to U+FFFD.  This changes no parse
    success/failure outcome.
  * Python exceptions are the inductive `PyError`.  The exact wording of
    CPython's `JSONDecodeError` / `TypeError` messages varies with input
    position; they are modelled by fixed representative texts, and no
    theorem depends on more than their non-emptiness.
  * The filesystem is a map `String → Option String` (`none` models
    `FileNotFoundError`); writing the output file is modelled by storing
    the whole result record in the `written` field of `RunResult`
    (`json.dump` serializes it in one call).
-/

/-- A JSON value as produced by Python's `json.loads`.  `nan` and `inf`
cover CPython's non-standard acceptance of `NaN`, `Infinity` and
`-Infinity`.  Objects are key/value lists in insertion order with
duplicate keys already collapsed (last value wins), matching `dict`. -/
inductive Json where
  | null
  | bool (b : Bool)
  | num (q : ℚ)
  | str (s : String)
  | arr (elems : List Json)
  | obj (kvs : List (String × Json))
  | nan
  | inf (positive : Bool)

/-- Association-list lookup, mirroring `dict.__getitem__` /
`dict.__contains__` on an object's key/value list. -/
def lookupKV (kvs : List (String × Json)) (k : String) : Option Json :=
  match kvs with
  | [] => none
  | (k', v) :: rest => if k' = k then some v else lookupKV rest k

/-- Insert with `dict` semantics: a repeated key keeps its original
position but takes the new value. -/
def insertKV (kvs : List (String × Json)) (k : String) (v : Json) :
    List (String × Json) :=
  match kvs with
  | [] => [(k, v)]
  | (k', v') :: rest =>
      if k' = k then (k', v) :: rest else (k', v') :: insertKV rest k v

/-- JSON whitespace (RFC 8259: space, tab, line feed, carriage return). -/
def isJsonWs (c : Char) : Bool :=
  c = ' ' || c = '\t' || c = '\n' || c = '\r'

def skipWs (cs : List Char) : List Char := cs.dropWhile isJsonWs

def isDigitC (c : Char) : Bool := '0' ≤ c && c ≤ '9'

def digitsToNat (ds : List Char) : Nat :=
  ds.foldl (fun a c => a * 10 + (c.toNat - 48)) 0

def hexVal (c : Char) : Option Nat :=
  if '0' ≤ c && c ≤ '9' then some (c.toNat - 48)
  else if 'a' ≤ c && c ≤ 'f' then some (c.toNat - 87)
  else if 'A' ≤ c && c ≤ 'F' then some (c.toNat - 55)
  else none

def hex4 (c1 c2 c3 c4 : Char) : Option Nat :=
  match hexVal c1, hexVal c2, hexVal c3, hexVal c4 with
  | some a, some b, some c, some d => some (((a * 16 + b) * 16 + c) * 16 + d)
  | _, _, _, _ => none

/-- Placeholder for code points Lean's `Char` cannot carry
(lone UTF-16 surrogates). -/
def surrogateChar : Char := '�'

def charOfCode (n : Nat) : Char :=
  if n < 55296 ∨ (57344 ≤ n ∧ n < 1114112) then Char.ofNat n
  else surrogateChar

/-- Body of a JSON string literal, after the opening quote.  Strict mode:
raw control characters are rejected; `\uXXXX` pairs of surrogates are
combined, lone surrogates become `surrogateChar`.  The fuel argument only
makes the recursion structural (every call consumes input, so the
`length + 1` supplied by the caller can never run out). -/
def parseStringBody : Nat → List Char → List Char → Option (String × List Char)
  | 0, _, _ => none
  | _ + 1, [], _ => none
  | _ + 1, '"' :: rest, acc => some (String.mk acc.reverse, rest)
  | fuel + 1, '\\' :: 'u' :: h1 :: h2 :: h3 :: h4 :: '\\' :: 'u' :: g1 :: g2 :: g3 :: g4 :: rest, acc =>
      match hex4 h1 h2 h3 h4 with
      | none => none
      | some a =>
          if 55296 ≤ a ∧ a < 56320 then
            -- high surrogate immediately followed by another \uXXXX escape
            match hex4 g1 g2 g3 g4 with
            | some b =>
                if 56320 ≤ b ∧ b < 57344 then
                  parseStringBody fuel rest
                    (charOfCode (65536 + (a - 55296) * 1024 + (b - 56320)) :: acc)
                else
                  parseStringBody fuel ('\\' :: 'u' :: g1 :: g2 :: g3 :: g4 :: rest)
                    (surrogateChar :: acc)
            | none =>
                parseStringBody fuel ('\\' :: 'u' :: g1 :: g2 :: g3 :: g4 :: rest)
                  (surrogateChar :: acc)
          else
            parseStringBody fuel ('\\' :: 'u' :: g1 :: g2 :: g3 :: g4 :: rest)
              (charOfCode a :: acc)
  | fuel + 1, '\\' :: 'u' :: h1 :: h2 :: h3 :: h4 :: rest, acc =>
      match hex4 h1 h2 h3 h4 with
      | none => none
      | some a =>
          if 55296 ≤ a ∧ a < 56320 then
            -- lone high surrogate (not followed by a \u escape)
            parseStringBody fuel rest (surrogateChar :: acc)
          else
            parseStringBody fuel rest (charOfCode a :: acc)
  | fuel + 1, '\\' :: e :: rest, acc =>
      if e = '"' then parseStringBody fuel rest ('"' :: acc)
      else if e = '\\' then parseStringBody fuel rest ('\\' :: acc)
      else if e = '/' then parseStringBody fuel rest ('/' :: acc)
      else if e = 'b' then parseStringBody fuel rest ('\x08' :: acc)
      else if e = 'f' then parseStringBody fuel rest ('\x0C' :: acc)
      else if e = 'n' then parseStringBody fuel rest ('\n' :: acc)
      else if e = 'r' then parseStringBody fuel rest ('\r' :: acc)
      else if e = 't' then parseStringBody fuel rest ('\t' :: acc)
      else none
  | _ + 1, '\\' :: [], _ => none
  | fuel + 1, c :: rest, acc =>
      if c.toNat < 32 then none else parseStringBody fuel rest (c :: acc)

/-- Exact rational value of a JSON numeric literal. -/
def numValue (neg : Bool) (intDs fracDs : List Char) (expNeg : Bool)
    (expDs : List Char) : ℚ :=
  if fracDs = [] ∧ expDs = [] then
    let n : ℚ := (digitsToNat intDs : ℚ)
    if neg then -n else n
  else
    let base : ℚ :=
      (digitsToNat (intDs ++ fracDs) : ℚ) / ((10 : ℚ) ^ fracDs.length)
    let signed := if neg then -base else base
    let e := digitsToNat expDs
    if expNeg then signed / ((10 : ℚ) ^ e) else signed * ((10 : ℚ) ^ e)

/-- JSON number, longest match of
`(-?(0|[1-9][0-9]*))(\.[0-9]+)?([eE][+-]?[0-9]+)?`, exactly the regex
CPython's `json` scanner uses.  A trailing `.`/`e` without digits is left
unconsumed, as with a longest-match regex. -/
def parseNumber (cs : List Char) : Option (Json × List Char) :=
  let signSplit : Bool × List Char :=
    match cs with
    | '-' :: r => (true, r)
    | _ => (false, cs)
  let neg := signSplit.1
  let cs1 := signSplit.2
  match cs1 with
  | [] => none
  | c :: r =>
    if isDigitC c then
      let intSplit : List Char × List Char :=
        if c = '0' then ([c], r) else cs1.span isDigitC
      let intDs := intSplit.1
      let rest1 := intSplit.2
      let fracSplit : List Char × List Char :=
        match rest1 with
        | '.' :: r2 =>
            let ds := r2.takeWhile isDigitC
            if ds = [] then ([], rest1) else (ds, r2.dropWhile isDigitC)
        | _ => ([], rest1)
      let fracDs := fracSplit.1
      let rest2 := fracSplit.2
      let expSplit : Bool × List Char × List Char :=
        match rest2 with
        | e :: r2 =>
            if e = 'e' ∨ e = 'E' then
              match r2 with
              | s :: r3 =>
                  if s = '+' ∨ s = '-' then
                    let ds := r3.takeWhile isDigitC
                    if ds = [] then (false, [], rest2)
                    else (s = '-', ds, r3.dropWhile isDigitC)
                  else
                    let ds := r2.takeWhile isDigitC
                    if ds = [] then (false, [], rest2)
                    else (false, ds, r2.dropWhile isDigitC)
              | [] => (false, [], rest2)
            else (false, [], rest2)
        | [] => (false, [], rest2)
      some (Json.num (numValue neg intDs fracDs expSplit.1 expSplit.2.1),
            expSplit.2.2)
    else none

/-- Parsing states of the JSON scanner: a value, the remaining elements
of an array, or the remaining members of an object (with the accumulated
prefix).  A single function over all three states keeps the recursion
structural in the fuel argument, so it reduces definitionally. -/
inductive PState where
  | val
  | arrItems (acc : List Json)
  | objItems (acc : List (String × Json))

/-- The JSON scanner: one value (or the tail of an array/object) starting
at the given characters; returns the parsed value and the unconsumed
remainder.  Fuel only bounds the recursion; `Json.parse` supplies more
than any input can consume. -/
def parseCore : Nat → PState → List Char → Option (Json × List Char)
  | 0, _, _ => none
  | _ + 1, PState.val, [] => none
  | fuel + 1, PState.val, c :: cs =>
    match c, cs with
    | 'n', 'u' :: 'l' :: 'l' :: rest => some (Json.null, rest)
    | 't', 'r' :: 'u' :: 'e' :: rest => some (Json.bool true, rest)
    | 'f', 'a' :: 'l' :: 's' :: 'e' :: rest => some (Json.bool false, rest)
    | 'N', 'a' :: 'N' :: rest => some (Json.nan, rest)
    | 'I', 'n' :: 'f' :: 'i' :: 'n' :: 'i' :: 't' :: 'y' :: rest =>
        some (Json.inf true, rest)
    | '-', 'I' :: 'n' :: 'f' :: 'i' :: 'n' :: 'i' :: 't' :: 'y' :: rest =>
        some (Json.inf false, rest)
    | '"', rest =>
        match parseStringBody (rest.length + 1) rest [] with
        | some (s, r) => some (Json.str s, r)
        | none => none
    | '[', rest =>
        match skipWs rest with
        | ']' :: r2 => some (Json.arr [], r2)
        | r1 => parseCore fuel (PState.arrItems []) r1
    | '\x7b', rest =>
        match skipWs rest with
        | '\x7d' :: r2 => some (Json.obj [], r2)
        | r1 => parseCore fuel (PState.objItems []) r1
    | _, _ => parseNumber (c :: cs)
  | fuel + 1, PState.arrItems acc, cs =>
    match parseCore fuel PState.val cs with
    | none => none
    | some (v, rest) =>
      match skipWs rest with
      | ',' :: r2 => parseCore fuel (PState.arrItems (acc ++ [v])) (skipWs r2)
      | ']' :: r2 => some (Json.arr (acc ++ [v]), r2)
      | _ => none
  | fuel + 1, PState.objItems acc, cs =>
    match cs with
    | '"' :: r1 =>
      match parseStringBody (r1.length + 1) r1 [] with
      | none => none
      | some (k, r2) =>
        match skipWs r2 with
        | ':' :: r3 =>
          match parseCore fuel PState.val (skipWs r3) with
          | none => none
          | some (v, r4) =>
            match skipWs r4 with
            | ',' :: r5 => parseCore fuel (PState.objItems (insertKV acc k v)) (skipWs r5)
            | '\x7d' :: r5 => some (Json.obj (insertKV acc k v), r5)
            | _ => none
        | _ => none
    | _ => none

/-- Model of Python `json.loads`: whole-input parse, surrounding JSON
whitespace allowed, trailing garbage rejected (`Extra data`). -/
def Json.parse (s : String) : Option Json :=
  match parseCore (2 * s.length + 2) PState.val (skipWs s.data) with
  | some (j, rest) => if skipWs rest = [] then some j else none
  | none => none

/-! ## Python exceptions raised along the pipeline -/

/-- The exceptions `call_claude_cli` can raise.  `runtimeError` carries the
full `RuntimeError` message (built as `"Claude CLI error: " ++ stderr`);
`valueError` carries the full `ValueError` message.  CPython's
`JSONDecodeError` and `TypeError` messages depend on input position /
offending type; they are modelled by fixed representative texts below, and
no theorem relies on more than their non-emptiness. -/
inductive PyError where
  | runtimeError (msg : String)
  | jsonDecodeError
  | typeError
  | valueError (msg : String)

/-- `str(e)` for the exceptions above (representative texts for the two
stdlib-formatted ones). -/
def PyError.message : PyError → String
  | .runtimeError m => m
  | .jsonDecodeError => "Expecting value: line 1 column 1 (char 0)"
  | .typeError => "the JSON object must be str, bytes or bytearray, not dict"
  | .valueError m => m

/-! ## Response resolution (`call_claude_cli`, lines 111-136) -/

/-- `str.strip()` with no arguments strips Python whitespace from both
ends.  The set below covers the ASCII whitespace code points Python
strips; exotic Unicode space separators are not modelled (no claim
depends on them). -/
def isPySpace (c : Char) : Bool :=
  c = ' ' || c = '\t' || c = '\n' || c = '\r' || c = '\x0b' || c = '\x0c' ||
  c = '\x1c' || c = '\x1d' || c = '\x1e' || c = '\x1f' || c = '\x85' || c = '\xa0'

def pyStrip (s : String) : String :=
  String.mk (((s.data.dropWhile isPySpace).reverse.dropWhile isPySpace).reverse)

/-- Python `str.find`: index of the first occurrence, or -1. -/
def pyFind (cs : List Char) (c : Char) : Int :=
  match cs.findIdx? (fun x => x = c) with
  | some i => (i : Int)
  | none => -1

/-- Python `str.rfind`: index of the last occurrence, or -1. -/
def pyRFind (cs : List Char) (c : Char) : Int :=
  match cs.reverse.findIdx? (fun x => x = c) with
  | some i => ((cs.length - 1 - i : Nat) : Int)
  | none => -1

def UNPARSEABLE_MSG : String := "Не удалось распарсить JSON из ответа: "

/-- Lines 128-136: parse the candidate response text as the final result.
First a direct `json.loads`; on `JSONDecodeError`, slice from the first
`\x7b` to the last `\x7d` (inclusive) and `json.loads` that slice — a
failure of this second parse is raised inside the `except` block and
propagates (it is NOT converted to the `ValueError`); if no such slice
exists, raise `ValueError` carrying the first 500 characters of the
candidate text. -/
def parseCandidate (response_text : String) : Except PyError Json :=
  match Json.parse response_text with
  | some j => .ok j
  | none =>
    let cs := response_text.data
    let start := pyFind cs '\x7b'
    let stop := pyRFind cs '\x7d' + 1
    if start ≠ -1 ∧ stop > start then
      match Json.parse (String.mk ((cs.drop start.toNat).take (stop - start).toNat)) with
      | some j => .ok j
      | none => .error .jsonDecodeError
    else
      .error (.valueError (UNPARSEABLE_MSG ++ String.mk (cs.take 500)))

/-- Lines 113-125: unwrap the CLI's outer JSON envelope.  On outer parse
failure the code substitutes the dict `\x7b"result": response\x7d`.  If the
outer value is a mapping containing `"result"`, its value becomes the
candidate text — when that value is not a string, the subsequent
`json.loads(response_text)` raises `TypeError` (not caught anywhere in
`call_claude_cli`), which we surface here since nothing reads the
candidate in between.  A plain string is used directly; any other JSON
value falls back to the raw response text. -/
def extractCandidate (response : String) : Except PyError String :=
  let cli_response := (Json.parse response).getD (Json.obj [("result", Json.str response)])
  match cli_response with
  | Json.obj kvs =>
      match lookupKV kvs "result" with
      | some (Json.str s) => .ok s
      | some _ => .error .typeError
      | none => .ok response
  | Json.str s => .ok s
  | _ => .ok response

/-- Lines 111-136: full response resolution from stripped stdout. -/
def resolveResponse (response : String) : Except PyError Json :=
  match extractCandidate response with
  | .ok t => parseCandidate t
  | .error e => .error e

/-! ## External invocation (`call_claude_cli`, lines 85-148) -/

/-- Outcome of `subprocess.run` on the external tool: it either hits the
timeout (`subprocess.TimeoutExpired`) or completes with an exit status,
captured stdout and captured stderr. -/
inductive CLIOutcome where
  | timeout
  | completed (returncode : Int) (stdout : String) (stderr : String)

/-- The synthetic fallback record returned on timeout (lines 138-148),
with keys in source order. -/
def timeoutFallback : Json :=
  Json.obj
    [("score", Json.num 50),
     ("recommendation", Json.str "review"),
     ("summary", Json.str "AI review не завершён в отведённое время. Требуется ручная проверка."),
     ("breakdown", Json.obj
        [("problems", Json.num 0), ("fixes", Json.num 0),
         ("review", Json.num 0), ("tests", Json.num 0)]),
     ("problems_found", Json.arr []),
     ("problems_fixed", Json.arr []),
     ("strengths", Json.arr []),
     ("improvements", Json.arr [Json.str "Не удалось выполнить автоматическую проверку"])]

/-- `call_claude_cli`: nonzero exit status raises `RuntimeError`; timeout
returns the synthetic fallback; otherwise the stripped stdout is resolved
through the fallback chain.  (The default timeout of 180 seconds only
selects when `CLIOutcome.timeout` occurs and has no other effect.) -/
def call_claude_cli (outcome : CLIOutcome) : Except PyError Json :=
  match outcome with
  | .timeout => .ok timeoutFallback
  | .completed rc stdout stderr =>
      if rc ≠ 0 then .error (.runtimeError ("Claude CLI error: " ++ stderr))
      else resolveResponse (pyStrip stdout)

/-! ## Prompt building (`FULLSTACK_PROMPT`, lines 17-70; `main` lines 173-176)

Python's `str.format` scans only the template: `\x7b\x7bliteral brace
escapes\x7d\x7d` become single braces and the two placeholder fields are
replaced once by the given arguments; the substituted content is never
re-scanned.  The template is modelled as the segment list it parses to. -/

/-- Template text before the `review_content` placeholder. -/
def PROMPT_P1 : String :=
  "Ты - senior fullstack разработчик, проводящий code review тестового задания.\n\nЗАДАНИЕ:\nКандидат должен был найти проблемы в коде (backend + frontend), описать их в REVIEW.md, исправить и написать тесты.\n\nИЗВЕСТНЫЕ ПРОБЛЕМЫ В ОРИГИНАЛЬНОМ КОДЕ:\n\nBackend (Python/FastAPI):\n1. SQL Injection - raw query с f-string (критичная уязвимость)\n2. Отсутствие валидации - dict вместо Pydantic schema (надежность)\n3. Нет обработки ошибок - отсутствует try/except (надежность)\n4. Хардкод секретов - SECRET_KEY в коде (безопасность)\n\nFrontend (React/TypeScript):\n5. Memory leak - отсутствие cleanup в useEffect (утечка памяти)\n6. XSS уязвимость - dangerouslySetInnerHTML без санитизации (безопасность)\n7. any типы - отсутствие типизации (TypeScript)\n8. Неправильный key - index вместо id в map (React)\n\nREVIEW.md КАНДИДАТА:\n"

/-- Template text between the `review_content` and `diff_content`
placeholders. -/
def PROMPT_P2 : String := "\n\nDIFF (изменения кандидата):\n"

/-- Template text after the `diff_content` placeholder (doubled braces of
the Python literal rendered as the single braces `str.format` produces). -/
def PROMPT_P3 : String :=
  "\n\nКРИТЕРИИ ОЦЕНКИ:\n- Найденные проблемы (0-30 баллов): сколько из 8 проблем описано в REVIEW.md\n- Качество исправлений (0-35 баллов): правильность и чистота кода\n- Качество review (0-15 баллов): понятность описания, best practices\n- Качество тестов (0-20 баллов): покрытие критичных случаев\n\nОТВЕТЬ СТРОГО В JSON ФОРМАТЕ:\n\x7b\n  \"score\": <итоговый балл 0-100>,\n  \"problems_found\": [\"sql_injection\", \"no_validation\", \"no_error_handling\", \"hardcoded_secrets\", \"memory_leak\", \"xss\", \"any_types\", \"wrong_key\"],\n  \"problems_fixed\": [\"sql_injection\", ...],\n  \"breakdown\": \x7b\n    \"problems\": <0-30>,\n    \"fixes\": <0-35>,\n    \"review\": <0-15>,\n    \"tests\": <0-20>\n  \x7d,\n  \"summary\": \"<2-3 предложения на русском о работе кандидата>\",\n  \"strengths\": [\"сильная сторона 1\", \"сильная сторона 2\"],\n  \"improvements\": [\"что можно улучшить 1\", \"что можно улучшить 2\"],\n  \"recommendation\": \"pass|review|reject\"\n\x7d\n\nГде recommendation:\n- \"pass\" - оценка >= 60, автоматическое прохождение\n- \"review\" - оценка 40-59, требуется ручная проверка рекрутером\n- \"reject\" - оценка < 40, автоматический отказ\n\nВАЖНО: Отвечай ТОЛЬКО валидным JSON, без markdown, без комментариев."

/-- A parsed segment of the format template. -/
inductive Seg where
  | lit (s : String)
  | reviewField
  | diffField

/-- `FULLSTACK_PROMPT` as the segment list `str.format` parses it into
(the `review_content` placeholder comes first in the template). -/
def FULLSTACK_PROMPT : List Seg :=
  [Seg.lit PROMPT_P1, Seg.reviewField, Seg.lit PROMPT_P2, Seg.diffField,
   Seg.lit PROMPT_P3]

def renderSeg (diff_content review_content : String) : Seg → String
  | .lit s => s
  | .reviewField => review_content
  | .diffField => diff_content

/-- `FULLSTACK_PROMPT.format(diff_content=…, review_content=…)`. -/
def buildPrompt (diff_content review_content : String) : String :=
  String.join (FULLSTACK_PROMPT.map (renderSeg diff_content review_content))

/-! ## `main` (lines 151-201) -/

/-- The three values `--task-type` accepts (argparse `choices`); `main`
never reads the parsed value afterwards. -/
inductive TaskType where
  | backend
  | frontend
  | fullstack

/-- `read_file`: file contents, or `""` on `FileNotFoundError`. -/
def read_file (fs : String → Option String) (path : String) : String :=
  (fs path).getD ""

def REVIEW_PLACEHOLDER : String := "(REVIEW.md не заполнен)"

/-- The prompt `main` builds: diff content, and review content with the
placeholder substituted when review content is empty (`review_content or
"(REVIEW.md не заполнен)"`). -/
def builtPrompt (fs : String → Option String) (diffPath reviewPath : String) :
    String :=
  buildPrompt (read_file fs diffPath)
    (if read_file fs reviewPath = "" then REVIEW_PLACEHOLDER
     else read_file fs reviewPath)

/-- Key/value list of the error-shaped record built by `main`'s `except`
handler (lines 182-192), keys in source order. -/
def errKvs (msg : String) : List (String × Json) :=
  [("score", Json.num 0),
     ("problems_found", Json.arr []),
     ("problems_fixed", Json.arr []),
     ("breakdown", Json.obj
        [("problems", Json.num 0), ("fixes", Json.num 0),
         ("review", Json.num 0), ("tests", Json.num 0)]),
     ("summary", Json.str ("Ошибка AI review: " ++ msg ++ ". Требуется ручная проверка.")),
     ("strengths", Json.arr []),
     ("improvements", Json.arr []),
     ("recommendation", Json.str "review"),
     ("error", Json.str msg)]

/-- The error-shaped record itself. -/
def errorRecord (msg : String) : Json := Json.obj (errKvs msg)

/-- Python truthiness of a JSON value (`if result.get('error'):`). -/
def jsonTruthy : Json → Bool
  | .null => false
  | .bool b => b
  | .num q => decide (q ≠ 0)
  | .str s => decide (s ≠ "")
  | .arr elems => !elems.isEmpty
  | .obj kvs => !kvs.isEmpty
  | .nan => true
  | .inf _ => true

def truthyOpt : Option Json → Bool
  | none => false
  | some v => jsonTruthy v

/-- Observable outcome of one run of `main`: whether the external tool
was invoked, the prompt fed to it, the record written to the output file
(`none` if the process exited before the write), and the process exit
code. -/
structure RunResult where
  invoked : Bool
  prompt : Option String
  written : Option Json
  exitCode : Nat

/-- Lines 178-192: the result is the resolved response, or the
error-shaped record when `call_claude_cli` raised (every `PyError` is an
`Exception`; `TimeoutExpired` never escapes `call_claude_cli`). -/
def runPipeline (callRes : Except PyError Json) : Json :=
  match callRes with
  | .ok j => j
  | .error e => errorRecord e.message

/-- Lines 194-201: write the record, print the two summary lines, then
`sys.exit(1)` iff `result.get('error')` is truthy.  When the parsed
result is not a mapping, `result.get` raises `AttributeError` after the
write: the process dies with a traceback and exit status 1. -/
def finishRun (prompt : String) (result : Json) : RunResult :=
  match result with
  | Json.obj kvs =>
      { invoked := true, prompt := some prompt, written := some result,
        exitCode := if truthyOpt (lookupKV kvs "error") then 1 else 0 }
  | _ =>
      { invoked := true, prompt := some prompt, written := some result,
        exitCode := 1 }

/-- `main`: read both files, exit 1 before any invocation if the diff
content is empty (missing or empty file), otherwise build the prompt,
invoke the tool (its behaviour is the function `cli` from prompt to
outcome), convert a raised exception to the error record, write, and
compute the exit code.  `_taskType` mirrors `--task-type`: accepted and
validated by argparse, never read afterwards.  The missing-token warning
(lines 163-164) only writes to stderr and is not modelled. -/
def mainRun (fs : String → Option String) (cli : String → CLIOutcome)
    (diffPath reviewPath : String) (_taskType : TaskType) : RunResult :=
  if read_file fs diffPath = "" then
    { invoked := false, prompt := none, written := none, exitCode := 1 }
  else
    let prompt := builtPrompt fs diffPath reviewPath
    finishRun prompt (runPipeline (call_claude_cli (cli prompt)))

/-- Does a record contain the keys `score`, `recommendation` and
`breakdown`? -/
def hasMinKeys (j : Json) : Bool :=
  match j with
  | .obj kvs =>
      (lookupKV kvs "score").isSome && (lookupKV kvs "recommendation").isSome &&
      (lookupKV kvs "breakdown").isSome
  | _ => false

/-! ## Derived observation helpers and concrete inputs used in claims -/

/-- `dict.get(k)` on a result record (`none` on a non-mapping). -/
def jsonGet (j : Json) (k : String) : Option Json :=
  match j with
  | .obj kvs => lookupKV kvs k
  | _ => none

/-- The substring from the first `\x7b` to the last `\x7d` (inclusive) of
a text, when a `\x7b` occurs at or before the last `\x7d` — the slice the
spec's brace-scanning fallback describes. -/
def braceSlice (t : String) : Option String :=
  match t.data.findIdx? (fun c => c = '\x7b') with
  | none => none
  | some i =>
    match t.data.reverse.findIdx? (fun c => c = '\x7d') with
    | none => none
    | some jr =>
      if i ≤ t.data.length - 1 - jr then
        some (String.mk ((t.data.drop i).take (t.data.length - 1 - jr + 1 - i)))
      else none

/-- `json.loads` of a string, as the resolution chain reports it:
success, or the propagated `JSONDecodeError`. -/
def jsonLoadsExcept (s : String) : Except PyError Json :=
  match Json.parse s with
  | some j => .ok j
  | none => .error .jsonDecodeError

/-- A filesystem with one nonempty diff file `"d"` and nothing else. -/
def fsOne : String → Option String :=
  fun p => if p = "d" then some "x" else none

/-- The raw external-tool output of the outer-envelope example:
`\x7b"result": "\x7b\"score\": 80, \"recommendation\": \"pass\"\x7d"\x7d`. -/
def RAW_C6 : String :=
  "\x7b\"result\": \"\x7b\\\"score\\\": 80, \\\"recommendation\\\": \\\"pass\\\"\x7d\"\x7d"

/-- The envelope's `"result"` string value in that example. -/
def INNER_C6 : String :=
  "\x7b\"score\": 80, \"recommendation\": \"pass\"\x7d"

/-- The brace-scanning example candidate text. -/
def TEXT_C7 : String :=
  "Notes: \x7b\"score\": 45, \"recommendation\": \"review\"\x7d -- end"

/-- Its first-`\x7b`-to-last-`\x7d` slice. -/
def SLICE_C7 : String :=
  "\x7b\"score\": 45, \"recommendation\": \"review\"\x7d"

/-! ## Helper lemmas -/

theorem mainRun_emptyDiff (fs : String → Option String) (cli : String → CLIOutcome)
    (dp rp : String) (t : TaskType) (h : read_file fs dp = "") :
    mainRun fs cli dp rp t =
      { invoked := false, prompt := none, written := none, exitCode := 1 } := by
  simp [mainRun, h]

theorem mainRun_resolved (fs : String → Option String) (cli : String → CLIOutcome)
    (dp rp : String) (t : TaskType) (h : read_file fs dp ≠ "") :
    mainRun fs cli dp rp t =
      finishRun (builtPrompt fs dp rp)
        (runPipeline (call_claude_cli (cli (builtPrompt fs dp rp)))) := by
  simp [mainRun, h]

theorem finishRun_invoked (p : String) (r : Json) : (finishRun p r).invoked = true := by
  cases r <;> rfl

theorem finishRun_prompt (p : String) (r : Json) : (finishRun p r).prompt = some p := by
  cases r <;> rfl

theorem finishRun_written (p : String) (r : Json) : (finishRun p r).written = some r := by
  cases r <;> rfl

theorem lookup_errKvs_error (msg : String) :
    lookupKV (errKvs msg) "error" = some (Json.str msg) := rfl

theorem hasMinKeys_errorRecord (msg : String) : hasMinKeys (errorRecord msg) = true := rfl

theorem claudeErr_ne_empty (e : String) : ("Claude CLI error: " ++ e) ≠ "" := by
  intro h
  have hl := congrArg String.length h
  rw [String.length_append] at hl
  rw [show ("Claude CLI error: ").length = 18 from rfl,
      show ("" : String).length = 0 from rfl] at hl
  omega

theorem finishRun_obj (p : String) (kvs : List (String × Json)) :
    finishRun p (Json.obj kvs) =
      { invoked := true, prompt := some p, written := some (Json.obj kvs),
        exitCode := if truthyOpt (lookupKV kvs "error") then 1 else 0 } := rfl

theorem finishRun_errorRecord (p msg : String) (h : msg ≠ "") :
    finishRun p (errorRecord msg) =
      { invoked := true, prompt := some p, written := some (errorRecord msg),
        exitCode := 1 } := by
  rw [show errorRecord msg = Json.obj (errKvs msg) from rfl, finishRun_obj,
    lookup_errKvs_error]
  simp [truthyOpt, jsonTruthy, h, errorRecord]

theorem parseCandidate_of_slice (t sub : String) (h1 : Json.parse t = none)
    (h2 : braceSlice t = some sub) :
    parseCandidate t = jsonLoadsExcept sub := by
  unfold braceSlice at h2
  cases hf : t.data.findIdx? (fun c => c = '\x7b') with
  | none => simp only [hf] at h2; exact Option.noConfusion h2
  | some i =>
    simp only [hf] at h2
    cases hr : t.data.reverse.findIdx? (fun c => c = '\x7d') with
    | none => simp only [hr] at h2; exact Option.noConfusion h2
    | some jr =>
      simp only [hr] at h2
      by_cases hle : i ≤ t.data.length - 1 - jr
      case neg => rw [if_neg hle] at h2; exact Option.noConfusion h2
      case pos =>
        rw [if_pos hle] at h2
        injection h2 with h2'
        have hpf : pyFind t.data '\x7b' = (i : Int) := by simp [pyFind, hf]
        have hpr : pyRFind t.data '\x7d' = ((t.data.length - 1 - jr : Nat) : Int) := by
          simp [pyRFind, hr]
        simp only [parseCandidate, h1, hpf, hpr]
        have hc1 : (i : Int) ≠ -1 := by omega
        have hc2 : ((t.data.length - 1 - jr : Nat) : Int) + 1 > (i : Int) := by omega
        rw [if_pos ⟨hc1, hc2⟩]
        have ha : ((i : Int)).toNat = i := by omega
        have hb : (((t.data.length - 1 - jr : Nat) : Int) + 1 - (i : Int)).toNat =
            t.data.length - 1 - jr + 1 - i := by omega
        rw [ha, hb, h2']
        unfold jsonLoadsExcept
        rfl

theorem parseCandidate_of_noSlice (t : String) (h1 : Json.parse t = none)
    (h2 : braceSlice t = none) :
    parseCandidate t =
      Except.error (PyError.valueError (UNPARSEABLE_MSG ++ String.mk (t.data.take 500))) := by
  unfold braceSlice at h2
  cases hf : t.data.findIdx? (fun c => c = '\x7b') with
  | none =>
    have hpf : pyFind t.data '\x7b' = -1 := by simp [pyFind, hf]
    simp only [parseCandidate, h1, hpf]
    rw [if_neg (by intro hcon; exact hcon.1 rfl)]
  | some i =>
    simp only [hf] at h2
    have hpf : pyFind t.data '\x7b' = (i : Int) := by simp [pyFind, hf]
    cases hr : t.data.reverse.findIdx? (fun c => c = '\x7d') with
    | none =>
      have hpr : pyRFind t.data '\x7d' = -1 := by simp [pyRFind, hr]
      simp only [parseCandidate, h1, hpf, hpr]
      rw [if_neg (by intro hcon; omega)]
    | some jr =>
      simp only [hr] at h2
      by_cases hle : i ≤ t.data.length - 1 - jr
      case pos => rw [if_pos hle] at h2; exact Option.noConfusion h2
      case neg =>
        have hpr : pyRFind t.data '\x7d' = ((t.data.length - 1 - jr : Nat) : Int) := by
          simp [pyRFind, hr]
        simp only [parseCandidate, h1, hpf, hpr]
        rw [if_neg (by intro hcon; omega)]

/-! ## Claim theorems -/

/-- C2: whenever the external process hits the timeout, the run does not
fail: the written record is the synthetic fallback with score 50,
recommendation "review", a zero breakdown, the explanatory summary and
the improvement note, and the exit code is 0. -/
theorem timeoutGracefulDegradation :
    ∀ (fs : String → Option String) (cli : String → CLIOutcome)
      (dp rp : String) (t : TaskType),
      read_file fs dp ≠ "" →
      cli (builtPrompt fs dp rp) = CLIOutcome.timeout →
      (mainRun fs cli dp rp t).written = some timeoutFallback ∧
      (mainRun fs cli dp rp t).exitCode = 0 ∧
      jsonGet timeoutFallback "score" = some (Json.num 50) ∧
      jsonGet timeoutFallback "recommendation" = some (Json.str "review") ∧
      jsonGet timeoutFallback "breakdown" =
        some (Json.obj
          [("problems", Json.num 0), ("fixes", Json.num 0),
           ("review", Json.num 0), ("tests", Json.num 0)]) ∧
      jsonGet timeoutFallback "summary" =
        some (Json.str "AI review не завершён в отведённое время. Требуется ручная проверка.") ∧
      jsonGet timeoutFallback "improvements" =
        some (Json.arr [Json.str "Не удалось выполнить автоматическую проверку"]) := by
  intro fs cli dp rp t h1 h2
  rw [mainRun_resolved fs cli dp rp t h1, h2]
  exact ⟨rfl, rfl, rfl, rfl, rfl, rfl, rfl⟩

/-- Witness for C2 at a concrete filesystem and an always-timing-out tool. -/
theorem timeoutWitness :
    read_file fsOne "d" ≠ "" ∧
    ((mainRun fsOne (fun _ => CLIOutcome.timeout) "d" "r" TaskType.fullstack).written =
        some timeoutFallback ∧
      (mainRun fsOne (fun _ => CLIOutcome.timeout) "d" "r" TaskType.fullstack).exitCode = 0) :=
  ⟨by decide,
   let h := timeoutGracefulDegradation fsOne (fun _ => CLIOutcome.timeout) "d" "r"
     TaskType.fullstack (by decide) rfl
   ⟨h.1, h.2.1⟩⟩

/-- C4: whenever the external process exits with nonzero status, the
raised `RuntimeError` is caught at the top level and converted into the
error-shaped record (score 0, recommendation "review", non-empty error
field) which is still written, and the exit code is 1. -/
theorem nonzeroExitErrorRecord :
    ∀ (fs : String → Option String) (cli : String → CLIOutcome)
      (dp rp : String) (t : TaskType) (rc : Int) (stdout stderr : String),
      read_file fs dp ≠ "" →
      cli (builtPrompt fs dp rp) = CLIOutcome.completed rc stdout stderr →
      rc ≠ 0 →
      (mainRun fs cli dp rp t).written =
        some (errorRecord ("Claude CLI error: " ++ stderr)) ∧
      jsonGet (errorRecord ("Claude CLI error: " ++ stderr)) "score" = some (Json.num 0) ∧
      jsonGet (errorRecord ("Claude CLI error: " ++ stderr)) "recommendation" =
        some (Json.str "review") ∧
      (∃ m, jsonGet (errorRecord ("Claude CLI error: " ++ stderr)) "error" =
          some (Json.str m) ∧ m ≠ "") ∧
      (mainRun fs cli dp rp t).exitCode = 1 := by
  intro fs cli dp rp t rc stdout stderr h1 h2 h3
  rw [mainRun_resolved fs cli dp rp t h1, h2]
  have hmsg : ("Claude CLI error: " ++ stderr) ≠ "" := claudeErr_ne_empty stderr
  simp only [call_claude_cli, if_pos h3, runPipeline, PyError.message]
  rw [finishRun_errorRecord _ _ hmsg]
  exact ⟨rfl, rfl, rfl, ⟨"Claude CLI error: " ++ stderr, lookup_errKvs_error _, hmsg⟩, rfl⟩

/-- Witness for C4 at a concrete filesystem and a tool that exits 1. -/
theorem nonzeroExitWitness :
    (read_file fsOne "d" ≠ "" ∧ (1 : Int) ≠ 0) ∧
    ((mainRun fsOne (fun _ => CLIOutcome.completed 1 "" "boom") "d" "r" TaskType.fullstack).written =
        some (errorRecord "Claude CLI error: boom") ∧
      (mainRun fsOne (fun _ => CLIOutcome.completed 1 "" "boom") "d" "r" TaskType.fullstack).exitCode = 1) :=
  ⟨⟨by decide, by decide⟩,
   let h := nonzeroExitErrorRecord fsOne (fun _ => CLIOutcome.completed 1 "" "boom") "d" "r"
     TaskType.fullstack 1 "" "boom" (by decide) rfl (by decide)
   ⟨h.1, h.2.2.2.2⟩⟩

/-- C5: a missing review file leaves the pipeline running (the tool is
invoked with the placeholder in the prompt and a record is written),
whereas a missing or empty diff file exits with code 1 before the tool is
ever invoked and before anything is written. -/
theorem missingFilesPolicy :
    (∀ (fs : String → Option String) (cli : String → CLIOutcome)
       (dp rp : String) (t : TaskType),
       fs rp = none → read_file fs dp ≠ "" →
       (mainRun fs cli dp rp t).invoked = true ∧
       (mainRun fs cli dp rp t).prompt =
         some (buildPrompt (read_file fs dp) REVIEW_PLACEHOLDER) ∧
       (mainRun fs cli dp rp t).written.isSome = true) ∧
    (∀ (fs : String → Option String) (cli : String → CLIOutcome)
       (dp rp : String) (t : TaskType),
       fs dp = none ∨ fs dp = some "" →
       (mainRun fs cli dp rp t).exitCode = 1 ∧
       (mainRun fs cli dp rp t).invoked = false ∧
       (mainRun fs cli dp rp t).written = none) := by
  constructor
  · intro fs cli dp rp t hrev hdiff
    rw [mainRun_resolved fs cli dp rp t hdiff]
    have hbp : builtPrompt fs dp rp = buildPrompt (read_file fs dp) REVIEW_PLACEHOLDER := by
      simp [builtPrompt, read_file, hrev]
    rw [finishRun_invoked, finishRun_prompt, finishRun_written, hbp]
    exact ⟨rfl, rfl, rfl⟩
  · intro fs cli dp rp t hdiff
    have hempty : read_file fs dp = "" := by
      cases hdiff with
      | inl h => simp [read_file, h]
      | inr h => simp [read_file, h]
    rw [mainRun_emptyDiff fs cli dp rp t hempty]
    exact ⟨rfl, rfl, rfl⟩

/-- Witness for C5: review file missing on `fsOne`; diff file missing on
the empty filesystem. -/
theorem missingFilesWitness :
    (fsOne "r" = none ∧ read_file fsOne "d" ≠ "") ∧
    (mainRun fsOne (fun _ => CLIOutcome.timeout) "d" "r" TaskType.fullstack).invoked = true ∧
    ((fun _ => (none : Option String)) "d" = none ∨
      (fun _ => (none : Option String)) "d" = some "") ∧
    (mainRun (fun _ => none) (fun _ => CLIOutcome.timeout) "d" "r" TaskType.fullstack).exitCode = 1 ∧
    (mainRun (fun _ => none) (fun _ => CLIOutcome.timeout) "d" "r" TaskType.fullstack).invoked = false :=
  ⟨⟨by decide, by decide⟩,
   (missingFilesPolicy.1 fsOne (fun _ => CLIOutcome.timeout) "d" "r" TaskType.fullstack
     (by decide) (by decide)).1,
   Or.inl rfl,
   (missingFilesPolicy.2 (fun _ => none) (fun _ => CLIOutcome.timeout) "d" "r" TaskType.fullstack
     (Or.inl rfl)).1,
   (missingFilesPolicy.2 (fun _ => none) (fun _ => CLIOutcome.timeout) "d" "r" TaskType.fullstack
     (Or.inl rfl)).2.1⟩

/-- C6: on the outer-envelope example the resolver yields exactly
`\x7b"score": 80, "recommendation": "pass"\x7d`; in general, whenever the
raw text parses as a JSON mapping containing a `"result"` key whose value
is a string, that string is parsed as the final result. -/
theorem outerEnvelopeUnwrap :
    resolveResponse RAW_C6 =
      Except.ok (Json.obj [("score", Json.num 80), ("recommendation", Json.str "pass")]) ∧
    ∀ (raw : String) (kvs : List (String × Json)) (s : String),
      Json.parse raw = some (Json.obj kvs) →
      lookupKV kvs "result" = some (Json.str s) →
      resolveResponse raw = parseCandidate s := by
  constructor
  · rfl
  · intro raw kvs s h1 h2
    simp [resolveResponse, extractCandidate, h1, h2]

/-- Witness for C6 at the example envelope itself. -/
theorem outerEnvelopeWitness :
    (Json.parse RAW_C6 = some (Json.obj [("result", Json.str INNER_C6)]) ∧
      lookupKV [("result", Json.str INNER_C6)] "result" = some (Json.str INNER_C6)) ∧
    resolveResponse RAW_C6 = parseCandidate INNER_C6 :=
  ⟨⟨rfl, rfl⟩,
   outerEnvelopeUnwrap.2 RAW_C6 [("result", Json.str INNER_C6)] INNER_C6 rfl rfl⟩

/-- C7: on the brace-scanning example the resolver yields exactly
`\x7b"score": 45, "recommendation": "review"\x7d`; in general, whenever
the candidate text does not parse directly and a first-`\x7b`-to-last-`\x7d`
slice exists, the resolver parses exactly that slice. -/
theorem braceScanFallback :
    parseCandidate TEXT_C7 =
      Except.ok (Json.obj [("score", Json.num 45), ("recommendation", Json.str "review")]) ∧
    ∀ (t sub : String),
      Json.parse t = none →
      braceSlice t = some sub →
      parseCandidate t = jsonLoadsExcept sub := by
  constructor
  · rfl
  · intro t sub h1 h2
    exact parseCandidate_of_slice t sub h1 h2

/-- Witness for C7 at the example text. -/
theorem braceScanWitness :
    (Json.parse TEXT_C7 = none ∧ braceSlice TEXT_C7 = some SLICE_C7) ∧
    parseCandidate TEXT_C7 = jsonLoadsExcept SLICE_C7 :=
  ⟨⟨rfl, rfl⟩, braceScanFallback.2 TEXT_C7 SLICE_C7 rfl rfl⟩

/-- C9: two runs differing only in the task-type flag value produce
identical observable results — the same built prompt, written record,
invocation behaviour and exit code (`main` never reads the flag). -/
theorem taskTypeNoninterference :
    ∀ (fs : String → Option String) (cli : String → CLIOutcome)
      (diffPath reviewPath : String) (t1 t2 : TaskType),
      mainRun fs cli diffPath reviewPath t1 = mainRun fs cli diffPath reviewPath t2 := by
  intro fs cli dp rp t1 t2
  rfl

/-- C10: prompt building is total and literal — substitution into the
fixed template always succeeds and always equals the three fixed template
parts with review content and diff content spliced in verbatim, whatever
braces or placeholder-looking tokens they contain. -/
theorem promptBuildTotalLiteral :
    ∀ (diff_content review_content : String),
      buildPrompt diff_content review_content =
        PROMPT_P1 ++ review_content ++ PROMPT_P2 ++ diff_content ++ PROMPT_P3 := by
  intro d r
  simp [buildPrompt, FULLSTACK_PROMPT, renderSeg, String.join, List.foldl]

theorem finishRun_exit_characterization (p : String) (r : Json) :
    ((finishRun p r).exitCode = 0 ∨ (finishRun p r).exitCode = 1) ∧
    ((finishRun p r).exitCode = 0 ↔
      ∃ kvs, r = Json.obj kvs ∧ truthyOpt (lookupKV kvs "error") = false) := by
  cases r
  case obj kvs =>
    rw [finishRun_obj]
    by_cases h : truthyOpt (lookupKV kvs "error") = true
    · rw [if_pos h]
      refine ⟨Or.inr rfl, ?_, ?_⟩
      · intro h0; exact absurd h0 one_ne_zero
      · rintro ⟨kvs2, heq, hfalse⟩
        injection heq with h'
        subst h'
        rw [hfalse] at h
        exact Bool.noConfusion h
    · rw [if_neg h]
      refine ⟨Or.inl rfl, ?_, ?_⟩
      · intro _
        exact ⟨kvs, rfl, Bool.not_eq_true _ ▸ Bool.of_not_eq_true h⟩
      · intro _; rfl
  all_goals
    exact ⟨Or.inr rfl, by
      constructor
      · intro h0; exact absurd h0 one_ne_zero
      · rintro ⟨kvs2, heq, _⟩; exact Json.noConfusion heq⟩

/-- C3 counterexample: with a tool whose stdout is the error-shaped JSON
`\x7b"error": "boom"\x7d`, the external tool succeeds and the response
successfully parses into a record carrying an error field — the claim
says this normal completion exits 0, but the written record is exactly
that parsed result and the exit code is 1. -/
theorem exitCodeCounterexample :
    call_claude_cli (CLIOutcome.completed 0 "\x7b\"error\": \"boom\"\x7d" "") =
      Except.ok (Json.obj [("error", Json.str "boom")]) ∧
    (mainRun fsOne (fun _ => CLIOutcome.completed 0 "\x7b\"error\": \"boom\"\x7d" "") "d" "r"
        TaskType.fullstack).written = some (Json.obj [("error", Json.str "boom")]) ∧
    (mainRun fsOne (fun _ => CLIOutcome.completed 0 "\x7b\"error\": \"boom\"\x7d" "") "d" "r"
        TaskType.fullstack).exitCode = 1 :=
  ⟨rfl, rfl, rfl⟩

/-- C3 amended: a missing/empty diff exits 1 before invocation and before
any write; otherwise some record is always written, the exit code is 0 or
1, and it is 0 exactly when the written record is a mapping whose `error`
entry is absent or falsy — regardless of whether that record came from a
successful parse, the timeout fallback, or the top-level handler.  (A
successfully parsed non-mapping result crashes after the write and also
exits 1.) -/
theorem exitCodeAmended :
    ∀ (fs : String → Option String) (cli : String → CLIOutcome)
      (dp rp : String) (t : TaskType),
      (read_file fs dp = "" →
        mainRun fs cli dp rp t =
          { invoked := false, prompt := none, written := none, exitCode := 1 }) ∧
      (read_file fs dp ≠ "" →
        ∃ rec, (mainRun fs cli dp rp t).written = some rec ∧
          ((mainRun fs cli dp rp t).exitCode = 0 ∨ (mainRun fs cli dp rp t).exitCode = 1) ∧
          ((mainRun fs cli dp rp t).exitCode = 0 ↔
            ∃ kvs, rec = Json.obj kvs ∧ truthyOpt (lookupKV kvs "error") = false)) := by
  intro fs cli dp rp t
  constructor
  · intro h; exact mainRun_emptyDiff fs cli dp rp t h
  · intro h
    rw [mainRun_resolved fs cli dp rp t h]
    exact ⟨runPipeline (call_claude_cli (cli (builtPrompt fs dp rp))),
      finishRun_written _ _,
      (finishRun_exit_characterization _ _).1,
      (finishRun_exit_characterization _ _).2⟩

/-- Witness for the amended C3 at a concrete empty filesystem (first
part) and at `fsOne` with a timing-out tool (second part). -/
theorem exitCodeWitness :
    (read_file (fun _ => (none : Option String)) "d" = "" ∧
      mainRun (fun _ => none) (fun _ => CLIOutcome.timeout) "d" "r" TaskType.fullstack =
        { invoked := false, prompt := none, written := none, exitCode := 1 }) ∧
    (read_file fsOne "d" ≠ "" ∧
      ∃ rec, (mainRun fsOne (fun _ => CLIOutcome.timeout) "d" "r" TaskType.fullstack).written =
          some rec ∧
        ((mainRun fsOne (fun _ => CLIOutcome.timeout) "d" "r" TaskType.fullstack).exitCode = 0 ∨
          (mainRun fsOne (fun _ => CLIOutcome.timeout) "d" "r" TaskType.fullstack).exitCode = 1) ∧
        ((mainRun fsOne (fun _ => CLIOutcome.timeout) "d" "r" TaskType.fullstack).exitCode = 0 ↔
          ∃ kvs, rec = Json.obj kvs ∧ truthyOpt (lookupKV kvs "error") = false)) :=
  ⟨⟨rfl, (exitCodeAmended (fun _ => none) (fun _ => CLIOutcome.timeout) "d" "r"
      TaskType.fullstack).1 rfl⟩,
   ⟨by decide, (exitCodeAmended fsOne (fun _ => CLIOutcome.timeout) "d" "r"
      TaskType.fullstack).2 (by decide)⟩⟩

/-- C1 counterexample: with a tool whose stdout is the valid JSON
`\x7b\x7d`, the run reaches the write stage and writes the empty mapping,
which lacks the keys score, recommendation and breakdown. -/
theorem writeMinKeysCounterexample :
    (mainRun fsOne (fun _ => CLIOutcome.completed 0 "\x7b\x7d" "") "d" "r"
        TaskType.fullstack).written = some (Json.obj []) ∧
    hasMinKeys (Json.obj []) = false :=
  ⟨rfl, rfl⟩

/-- C1 amended: every run that reaches the write stage writes a complete
record; that record contains score, recommendation and breakdown whenever
it is the timeout fallback or the top-level error record, but a
successfully resolved external response is written as-is without schema
validation and may lack those keys. -/
theorem writeAlwaysRecordAmended :
    ∀ (fs : String → Option String) (cli : String → CLIOutcome)
      (dp rp : String) (t : TaskType),
      read_file fs dp ≠ "" →
      ∃ rec, (mainRun fs cli dp rp t).written = some rec ∧
        (hasMinKeys rec = true ∨
          ∃ p, (mainRun fs cli dp rp t).prompt = some p ∧
               call_claude_cli (cli p) = Except.ok rec) := by
  intro fs cli dp rp t h
  rw [mainRun_resolved fs cli dp rp t h]
  cases hX : call_claude_cli (cli (builtPrompt fs dp rp)) with
  | ok j =>
      exact ⟨j, finishRun_written _ _,
        Or.inr ⟨builtPrompt fs dp rp, finishRun_prompt _ _, hX⟩⟩
  | error e =>
      exact ⟨errorRecord e.message, finishRun_written _ _,
        Or.inl (hasMinKeys_errorRecord _)⟩

/-- Witness for the amended C1 at `fsOne` with a timing-out tool. -/
theorem writeAlwaysRecordWitness :
    read_file fsOne "d" ≠ "" ∧
    ∃ rec, (mainRun fsOne (fun _ => CLIOutcome.timeout) "d" "r" TaskType.fullstack).written =
        some rec ∧
      (hasMinKeys rec = true ∨
        ∃ p, (mainRun fsOne (fun _ => CLIOutcome.timeout) "d" "r" TaskType.fullstack).prompt =
            some p ∧
          call_claude_cli ((fun _ => CLIOutcome.timeout) p) = Except.ok rec) :=
  ⟨by decide,
   writeAlwaysRecordAmended fsOne (fun _ => CLIOutcome.timeout) "d" "r" TaskType.fullstack
     (by decide)⟩

/-- C8 counterexample: on the candidate text `x \x7by\x7d` every parsing
attempt fails (the brace-delimited substring `\x7by\x7d` is present but
unparseable), yet the resolver raises the propagated parse error, not the
"response unparseable" `ValueError` carrying the first 500 characters of
the candidate text. -/
theorem unparseableCounterexample :
    parseCandidate "x \x7by\x7d" = Except.error PyError.jsonDecodeError ∧
    Except.error PyError.jsonDecodeError ≠
      (Except.error (PyError.valueError
        (UNPARSEABLE_MSG ++ String.mk ("x \x7by\x7d".data.take 500))) : Except PyError Json) :=
  ⟨rfl, by intro h; injection h with h'; exact PyError.noConfusion h'⟩

/-- C8 amended: when direct parsing fails, the "response unparseable"
`ValueError` carrying the first 500 characters of the candidate text is
raised exactly when no first-`\x7b`-to-last-`\x7d` substring exists;
when such a substring exists but fails to parse, the parse error
propagates instead, without that diagnostic. -/
theorem unparseableAmended :
    (∀ t : String, Json.parse t = none → braceSlice t = none →
        parseCandidate t =
          Except.error (PyError.valueError
            (UNPARSEABLE_MSG ++ String.mk (t.data.take 500)))) ∧
    (∀ (t sub : String), Json.parse t = none → braceSlice t = some sub →
        Json.parse sub = none →
        parseCandidate t = Except.error PyError.jsonDecodeError) := by
  constructor
  · exact parseCandidate_of_noSlice
  · intro t sub h1 h2 h3
    rw [parseCandidate_of_slice t sub h1 h2]
    simp [jsonLoadsExcept, h3]

/-- Witness for the amended C8 on two concrete candidate texts. -/
theorem unparseableWitness :
    (Json.parse "no json here" = none ∧ braceSlice "no json here" = none ∧
      parseCandidate "no json here" =
        Except.error (PyError.valueError
          (UNPARSEABLE_MSG ++ String.mk ("no json here".data.take 500)))) ∧
    (Json.parse "x \x7by\x7d" = none ∧ braceSlice "x \x7by\x7d" = some "\x7by\x7d" ∧
      Json.parse "\x7by\x7d" = none ∧
      parseCandidate "x \x7by\x7d" = Except.error PyError.jsonDecodeError) :=
  ⟨⟨rfl, rfl, unparseableAmended.1 "no json here" rfl rfl⟩,
   ⟨rfl, rfl, rfl, unparseableAmended.2 "x \x7by\x7d" "\x7by\x7d" rfl rfl rfl⟩⟩
